import Mathlib

/-!
Verification of the peak-interval data model of the hydroqc_control4
repository (file `temp_peak_utf8.py`): the `Peak` class, its derived
`Anchor` and `PreHeat` windows, the morning/evening classification, the
`set_critical` mutation and the six settlement accessors.

Timestamps are modelled as integers counting seconds in the model's single
fixed-offset timezone, with second 0 at a midnight; `datetime.time()` of a
timestamp is then its residue modulo 86400, `datetime.timedelta(hours=h)`
is `h * 3600` and `datetime.timedelta(minutes=m)` is `m * 60`.  All the
arithmetic performed by the source is exact at this resolution, so a finer
tick (Python uses microseconds) would change nothing in the statements.

The base classes `hydroqc.timerange.TimeRange` / `hydroqc.peak.basepeak.BasePeak`
and the constant modules `hydroqc.peak.consts` / `hydroqc.peak.cpc.consts`
are imported by the source from the hydroqc library and are not part of the
repository tree; their behaviour is modelled from the spec where noted.
-/

/-- Python `t.time()` for an aware timestamp `t` of the model's fixed zone:
the number of seconds since the midnight of `t`'s day, i.e. `t` reduced
modulo 86400 (Python's `%` on integers and `Int.emod` agree: the result is
in `[0, 86400)` also for timestamps before the epoch). -/
def timeOfDay (t : Int) : Int :=
  t % 86400

/-- Modelled from the spec: the error taxonomy of §7 for the missing
constructors — `InvalidInterval` raised at construction when
`start >= end`, and `InvalidConfiguration` for bad duration constants. -/
inductive HydroqcError where
  | InvalidInterval
  | InvalidConfiguration
deriving DecidableEq

/-- Modelled from the spec: the configuration constants that the source
imports from `hydroqc.peak.cpc.consts` (a module that is not in the
repository tree).  The spec (§6) lists them as orchestrator-supplied or
compiled-in defaults, so they are kept abstract here: the wall-clock band
bounds are seconds-of-day values and the anchor offsets/durations are in
hours, exactly as the source consumes them. -/
structure CpcConsts where
  morning_peak_start : Int
  morning_peak_end : Int
  morning_anchor_start_offset : Int
  morning_anchor_duration : Int
  evening_anchor_start_offset : Int
  evening_anchor_duration : Int
deriving DecidableEq

/-- A value stored in the settlement payload (`CriticalPeakDataTyping` in
the source): the utility's fields are numeric, string or boolean. -/
inductive FieldValue where
  | num (x : Rat)
  | str (s : String)
  | bool (b : Bool)
deriving DecidableEq

/-- The settlement payload: a string-keyed mapping, modelling the Python
dict passed to `set_critical` (keys of a Python dict are unique). -/
abbrev CriticalPeakData := List (String × FieldValue)

/-- Python `stats.get(key)`: the value stored under `key`, or `none` when
the key is absent.  `dict.get` never raises. -/
def dictGet (stats : CriticalPeakData) (key : String) : Option FieldValue :=
  List.lookup key stats

/-- `hydroqc.timerange.TimeRange`: a time window with a criticality flag.
The class itself is plain data (`start_date`, `end_date`, `is_critical`). -/
structure TimeRange where
  start_date : Int
  end_date : Int
  is_critical : Bool
deriving DecidableEq

/-- Modelled from the spec: the `TimeRange` constructor.  The class lives
in the hydroqc library, outside the repository tree; per §4.1 constructing
with `start >= end` fails with `InvalidInterval`, otherwise the window is
stored as given. -/
def TimeRange.init (start_date end_date : Int) (is_critical : Bool) :
    Except HydroqcError TimeRange :=
  if start_date < end_date then
    .ok ⟨start_date, end_date, is_critical⟩
  else
    .error .InvalidInterval

/-- `Anchor(TimeRange)`: a name tag only — its constructor delegates
unchanged to the `TimeRange` constructor. -/
abbrev Anchor := TimeRange

/-- `PreHeat(TimeRange)`: a name tag only — its constructor delegates
unchanged to the `TimeRange` constructor. -/
abbrev PreHeat := TimeRange

/-- The state of a `Peak(BasePeak)` instance: the interval bounds and
criticality flag held by the base class, plus `_preheat_duration`
(minutes) and `_raw_stats` set by `Peak.__init__`. -/
structure Peak where
  start_date : Int
  end_date : Int
  preheat_duration : Int
  is_critical : Bool
  raw_stats : CriticalPeakData
deriving DecidableEq

/-- `Peak.__init__(start_date, end_date, preheat_duration)`: stores
`preheat_duration` unvalidated, calls `super().__init__(start_date,
end_date)` — the base-class part is modelled from the spec: `BasePeak`
is not in the repository tree, §4.1/§8 say construction with
`start >= end` fails with `InvalidInterval` and §3 says `is_critical`
defaults to false — then sets `_raw_stats` to the empty mapping. -/
def Peak.init (start_date end_date preheat_duration : Int) :
    Except HydroqcError Peak :=
  if start_date < end_date then
    .ok { start_date := start_date, end_date := end_date,
          preheat_duration := preheat_duration,
          is_critical := false, raw_stats := [] }
  else
    .error .InvalidInterval

/-- `Peak.set_critical(stats)`: sets `_is_critical = True` and stores the
payload verbatim in `_raw_stats`.  Total: the source raises nothing. -/
def Peak.set_critical (p : Peak) (stats : CriticalPeakData) : Peak :=
  { p with is_critical := true, raw_stats := stats }

/-- `Peak.is_morning_peak()`: `DEFAULT_MORNING_PEAK_START <= self.start_date.time()
<= DEFAULT_MORNING_PEAK_END` (a chained comparison: both bounds inclusive). -/
def Peak.is_morning_peak (c : CpcConsts) (p : Peak) : Bool :=
  decide (c.morning_peak_start ≤ timeOfDay p.start_date) &&
    decide (timeOfDay p.start_date ≤ c.morning_peak_end)

/-- `Peak.anchor` property: picks the morning or the evening
offset/duration pair according to `is_morning_peak()`, subtracts the
offset (hours) from the peak start, adds the duration (hours) and builds
an `Anchor` carrying the peak's current criticality flag. -/
def Peak.anchor (c : CpcConsts) (p : Peak) : Except HydroqcError Anchor :=
  let anchor_start_offset :=
    if p.is_morning_peak c then c.morning_anchor_start_offset
    else c.evening_anchor_start_offset
  let anchor_duration :=
    if p.is_morning_peak c then c.morning_anchor_duration
    else c.evening_anchor_duration
  let anchor_start_date := p.start_date - anchor_start_offset * 3600
  let anchor_end_date := anchor_start_date + anchor_duration * 3600
  TimeRange.init anchor_start_date anchor_end_date p.is_critical

/-- `Peak.preheat` property: the window from `start_date -
timedelta(minutes=self._preheat_duration)` to `start_date`, carrying the
peak's current criticality flag. -/
def Peak.preheat (p : Peak) : Except HydroqcError PreHeat :=
  TimeRange.init (p.start_date - p.preheat_duration * 60) p.start_date
    p.is_critical

/-- `Peak.credit` property: `self._raw_stats.get("montantEffacee")`. -/
def Peak.credit (p : Peak) : Option FieldValue :=
  dictGet p.raw_stats "montantEffacee"

/-- `Peak.ref_consumption` property: `self._raw_stats.get("consoReference")`. -/
def Peak.ref_consumption (p : Peak) : Option FieldValue :=
  dictGet p.raw_stats "consoReference"

/-- `Peak.actual_consumption` property: `self._raw_stats.get("consoReelle")`. -/
def Peak.actual_consumption (p : Peak) : Option FieldValue :=
  dictGet p.raw_stats "consoReelle"

/-- `Peak.saved_consumption` property: `self._raw_stats.get("consoEffacee")`. -/
def Peak.saved_consumption (p : Peak) : Option FieldValue :=
  dictGet p.raw_stats "consoEffacee"

/-- `Peak.consumption_code` property: `self._raw_stats.get("codeConso")`. -/
def Peak.consumption_code (p : Peak) : Option FieldValue :=
  dictGet p.raw_stats "codeConso"

/-- `Peak.is_billed` property: `self._raw_stats.get("indFacture")`. -/
def Peak.is_billed (p : Peak) : Option FieldValue :=
  dictGet p.raw_stats "indFacture"

/-- The states a `Peak` instance can be in: freshly constructed, or after
some calls of `set_critical` (the only mutator the class has; every other
method and property is a pure read). -/
inductive Peak.Reachable : Peak → Prop where
  | init (s e d : Int) (p : Peak) :
      Peak.init s e d = .ok p → Peak.Reachable p
  | set_critical (p : Peak) (stats : CriticalPeakData) :
      Peak.Reachable p → Peak.Reachable (p.set_critical stats)

/-- `dict.get` misses exactly when the key is not among the stored keys. -/
theorem dictGet_eq_none_iff (m : CriticalPeakData) (k : String) :
    dictGet m k = none ↔ k ∉ m.map Prod.fst := by
  induction m with
  | nil => simp [dictGet, List.lookup]
  | cons a tl ih =>
    obtain ⟨k1, v1⟩ := a
    by_cases h : k = k1
    · subst h
      simp [dictGet, List.lookup]
    · simpa [dictGet, List.lookup, beq_false_of_ne h, h] using ih

/-- With the unique keys of a Python dict, `dict.get` returns exactly the
stored value of a present key. -/
theorem dictGet_eq_some_iff (m : CriticalPeakData)
    (hnd : (m.map Prod.fst).Nodup) (k : String) (v : FieldValue) :
    dictGet m k = some v ↔ (k, v) ∈ m := by
  induction m with
  | nil => simp [dictGet, List.lookup]
  | cons a tl ih =>
    obtain ⟨k1, v1⟩ := a
    simp only [List.map_cons, List.nodup_cons] at hnd
    by_cases h : k = k1
    · subst h
      simp only [dictGet, List.lookup, beq_self_eq_true, List.mem_cons]
      constructor
      · rintro h2
        left
        cases h2
        rfl
      · rintro (h2 | h2)
        · cases h2; rfl
        · exact absurd (List.mem_map_of_mem Prod.fst h2) hnd.1
    · simpa [dictGet, List.lookup, beq_false_of_ne h, h] using ih hnd.2

/-- Claim C1: `is_morning_peak` returns true iff the time-of-day of the
peak's start lies in the inclusive band `[morning_peak_start,
morning_peak_end]` (otherwise the peak is an evening peak), and the
classification is a function of the clock time of the start alone: two
peaks whose starts have identical clock times classify identically,
whatever their dates. -/
theorem is_morning_peak_band_and_clock_only (c : CpcConsts) (p q : Peak) :
    (p.is_morning_peak c = true ↔
      c.morning_peak_start ≤ timeOfDay p.start_date ∧
        timeOfDay p.start_date ≤ c.morning_peak_end) ∧
    (timeOfDay p.start_date = timeOfDay q.start_date →
      p.is_morning_peak c = q.is_morning_peak c) := by
  constructor
  · simp [Peak.is_morning_peak]
  · intro h
    simp only [Peak.is_morning_peak, h]

/-- Concrete instance of C1: starts 07:30 on two different days (three
days apart) have the same clock time and classify identically — both
morning for the band 06:00–09:00. -/
theorem is_morning_peak_band_and_clock_only_witness :
    timeOfDay 27000 = timeOfDay (3 * 86400 + 27000) ∧
    Peak.is_morning_peak ⟨21600, 32400, 3, 2, 2, 1⟩ ⟨27000, 41400, 180, false, []⟩ =
      Peak.is_morning_peak ⟨21600, 32400, 3, 2, 2, 1⟩
        ⟨3 * 86400 + 27000, 3 * 86400 + 41400, 180, false, []⟩ ∧
    Peak.is_morning_peak ⟨21600, 32400, 3, 2, 2, 1⟩ ⟨27000, 41400, 180, false, []⟩ = true := by
  refine ⟨by decide, ?_, by decide⟩
  exact (is_morning_peak_band_and_clock_only ⟨21600, 32400, 3, 2, 2, 1⟩
    ⟨27000, 41400, 180, false, []⟩
    ⟨3 * 86400 + 27000, 3 * 86400 + 41400, 180, false, []⟩).2 (by decide)

/-- Claim C2: when the configured anchor durations are positive (the
spec's well-configuration condition, §7), reading the anchor property
yields exactly the window from `start − offset` (hours) of length
`duration` (hours), with the morning constant pair when the peak
classifies as morning and the evening pair otherwise, and the anchor's
criticality flag equals the peak's flag at derivation. -/
theorem anchor_window_derivation (c : CpcConsts) (p : Peak)
    (hm : 0 < c.morning_anchor_duration) (he : 0 < c.evening_anchor_duration) :
    p.anchor c = .ok
      { start_date := p.start_date -
          (if p.is_morning_peak c then c.morning_anchor_start_offset
           else c.evening_anchor_start_offset) * 3600,
        end_date := p.start_date -
          (if p.is_morning_peak c then c.morning_anchor_start_offset
           else c.evening_anchor_start_offset) * 3600 +
          (if p.is_morning_peak c then c.morning_anchor_duration
           else c.evening_anchor_duration) * 3600,
        is_critical := p.is_critical } := by
  unfold Peak.anchor TimeRange.init
  by_cases hmor : p.is_morning_peak c
  · simp only [hmor, if_true]
    rw [if_pos (by omega)]
  · simp only [hmor, if_false]
    rw [if_pos (by omega)]

/-- Concrete instance of C2 (spec §8, scenario 1): peak 17:00–21:00 is an
evening peak; with evening offset 2 h and duration 1 h the anchor is
15:00–16:00 and carries the peak's non-critical flag. -/
theorem anchor_window_derivation_witness :
    Peak.anchor ⟨21600, 32400, 3, 2, 2, 1⟩ ⟨61200, 75600, 180, false, []⟩ =
      .ok ⟨54000, 57600, false⟩ := by
  have h := anchor_window_derivation ⟨21600, 32400, 3, 2, 2, 1⟩
    ⟨61200, 75600, 180, false, []⟩ (by decide) (by decide)
  simpa using h

/-- Claim C3: whatever the classification, when the stored pre-heat
duration is positive (the spec's well-configuration condition, §7) the
preheat property yields exactly the window from `start −
preheat_duration` (minutes) to `start` — so the pre-heat window always
ends exactly at the peak start — and its criticality flag equals the
peak's flag at derivation. -/
theorem preheat_window_derivation (p : Peak) (h : 0 < p.preheat_duration) :
    p.preheat = .ok
      { start_date := p.start_date - p.preheat_duration * 60,
        end_date := p.start_date,
        is_critical := p.is_critical } ∧
    ∀ w : PreHeat, p.preheat = .ok w → w.end_date = p.start_date := by
  have hok : p.preheat = .ok
      { start_date := p.start_date - p.preheat_duration * 60,
        end_date := p.start_date,
        is_critical := p.is_critical } := by
    unfold Peak.preheat TimeRange.init
    rw [if_pos (by omega)]
  refine ⟨hok, ?_⟩
  intro w hw
  rw [hok] at hw
  cases hw
  rfl

/-- Concrete instance of C3 (spec §8, scenario 2): peak starting 17:00
with a 180-minute pre-heat duration has pre-heat window 14:00–17:00,
ending exactly at the peak start. -/
theorem preheat_window_derivation_witness :
    Peak.preheat ⟨61200, 75600, 180, false, []⟩ = .ok ⟨50400, 61200, false⟩ ∧
    (⟨50400, 61200, false⟩ : PreHeat).end_date =
      (⟨61200, 75600, 180, false, []⟩ : Peak).start_date := by
  have h := preheat_window_derivation ⟨61200, 75600, 180, false, []⟩ (by decide)
  exact ⟨by simpa using h.1, h.2 ⟨50400, 61200, false⟩ (by simpa using h.1)⟩

/-- Claim C4: each of the six settlement accessors reads exactly its fixed
external field name from the stored mapping — for a mapping with the
unique keys of a Python dict, the accessor returns `some v` exactly when
the mapping stores `v` under that field name, and returns `none` exactly
when the field name is absent from the mapping's keys.  All six accessors
are total functions: none can raise. -/
theorem settlement_accessors_field_contract (p : Peak)
    (hnd : (p.raw_stats.map Prod.fst).Nodup) :
    (∀ v, p.credit = some v ↔ ("montantEffacee", v) ∈ p.raw_stats) ∧
    (p.credit = none ↔ "montantEffacee" ∉ p.raw_stats.map Prod.fst) ∧
    (∀ v, p.ref_consumption = some v ↔ ("consoReference", v) ∈ p.raw_stats) ∧
    (p.ref_consumption = none ↔ "consoReference" ∉ p.raw_stats.map Prod.fst) ∧
    (∀ v, p.actual_consumption = some v ↔ ("consoReelle", v) ∈ p.raw_stats) ∧
    (p.actual_consumption = none ↔ "consoReelle" ∉ p.raw_stats.map Prod.fst) ∧
    (∀ v, p.saved_consumption = some v ↔ ("consoEffacee", v) ∈ p.raw_stats) ∧
    (p.saved_consumption = none ↔ "consoEffacee" ∉ p.raw_stats.map Prod.fst) ∧
    (∀ v, p.consumption_code = some v ↔ ("codeConso", v) ∈ p.raw_stats) ∧
    (p.consumption_code = none ↔ "codeConso" ∉ p.raw_stats.map Prod.fst) ∧
    (∀ v, p.is_billed = some v ↔ ("indFacture", v) ∈ p.raw_stats) ∧
    (p.is_billed = none ↔ "indFacture" ∉ p.raw_stats.map Prod.fst) := by
  refine ⟨fun v => ?_, ?_, fun v => ?_, ?_, fun v => ?_, ?_, fun v => ?_, ?_,
    fun v => ?_, ?_, fun v => ?_, ?_⟩ <;>
    first
      | exact dictGet_eq_some_iff p.raw_stats hnd _ v
      | exact dictGet_eq_none_iff p.raw_stats _

/-- Concrete instance of C4 (spec §8, scenario 3): a payload supplying
`montantEffacee`, `consoReference` and `consoReelle` makes `credit` and
`ref_consumption` return the stored values while `saved_consumption` and
`is_billed` are absent. -/
theorem settlement_accessors_field_contract_witness :
    Peak.credit ⟨61200, 75600, 180, true,
        [("montantEffacee", .num 4.25), ("consoReference", .num 10),
         ("consoReelle", .num 7.5)]⟩ = some (.num 4.25) ∧
    Peak.ref_consumption ⟨61200, 75600, 180, true,
        [("montantEffacee", .num 4.25), ("consoReference", .num 10),
         ("consoReelle", .num 7.5)]⟩ = some (.num 10) ∧
    Peak.saved_consumption ⟨61200, 75600, 180, true,
        [("montantEffacee", .num 4.25), ("consoReference", .num 10),
         ("consoReelle", .num 7.5)]⟩ = none ∧
    Peak.is_billed ⟨61200, 75600, 180, true,
        [("montantEffacee", .num 4.25), ("consoReference", .num 10),
         ("consoReelle", .num 7.5)]⟩ = none := by
  have h := settlement_accessors_field_contract ⟨61200, 75600, 180, true,
    [("montantEffacee", .num 4.25), ("consoReference", .num 10),
     ("consoReelle", .num 7.5)]⟩ (by decide)
  refine ⟨(h.1 (.num 4.25)).2 (by simp), (h.2.2.1 (.num 10)).2 (by simp),
    h.2.2.2.2.2.2.2.1.2 (by decide), h.2.2.2.2.2.2.2.2.2.2.2.2 (by decide)⟩

/-- Claim C5: in every reachable state of a `Peak` in which `is_critical`
is still false — i.e. after construction and any sequence of reads, since
`set_critical` is the only mutator and it sets the flag — all six
settlement accessors return absent; and the reachable-state invariant
holds that the stored settlement mapping is non-empty only when
`is_critical` is true. -/
theorem settlement_gating_invariant (p : Peak) (hr : Peak.Reachable p) :
    (p.is_critical = false →
      p.credit = none ∧ p.ref_consumption = none ∧
      p.actual_consumption = none ∧ p.saved_consumption = none ∧
      p.consumption_code = none ∧ p.is_billed = none) ∧
    (p.raw_stats ≠ [] → p.is_critical = true) := by
  induction hr with
  | init s e d p h =>
    unfold Peak.init at h
    split at h
    · cases h
      exact ⟨fun _ => ⟨rfl, rfl, rfl, rfl, rfl, rfl⟩, fun h2 => absurd rfl h2⟩
    · cases h
  | set_critical p stats hp ih =>
    exact ⟨fun h => by simp [Peak.set_critical] at h, fun _ => rfl⟩

/-- Concrete instance of C5: a freshly constructed (hence reachable,
non-critical) peak has every settlement accessor absent. -/
theorem settlement_gating_invariant_witness :
    Peak.credit ⟨61200, 75600, 180, false, []⟩ = none ∧
    Peak.ref_consumption ⟨61200, 75600, 180, false, []⟩ = none ∧
    Peak.actual_consumption ⟨61200, 75600, 180, false, []⟩ = none ∧
    Peak.saved_consumption ⟨61200, 75600, 180, false, []⟩ = none ∧
    Peak.consumption_code ⟨61200, 75600, 180, false, []⟩ = none ∧
    Peak.is_billed ⟨61200, 75600, 180, false, []⟩ = none :=
  (settlement_gating_invariant ⟨61200, 75600, 180, false, []⟩
    (Peak.Reachable.init 61200 75600 180 _ (by rfl))).1 rfl

/-- Claim C6: two successive `set_critical` calls with payloads `p1` then
`p2` leave the peak critical with exactly `p2` stored — the composite
state equals the one reached by the single call with `p2`, so nothing of
`p1` remains observable, and every accessor reads from `p2`.  Both calls
are total functions: no error is possible. -/
theorem set_critical_overwrite (p : Peak) (p1 p2 : CriticalPeakData) :
    ((p.set_critical p1).set_critical p2).is_critical = true ∧
    ((p.set_critical p1).set_critical p2).raw_stats = p2 ∧
    (p.set_critical p1).set_critical p2 = p.set_critical p2 ∧
    ((p.set_critical p1).set_critical p2).credit = dictGet p2 "montantEffacee" ∧
    ((p.set_critical p1).set_critical p2).ref_consumption = dictGet p2 "consoReference" ∧
    ((p.set_critical p1).set_critical p2).actual_consumption = dictGet p2 "consoReelle" ∧
    ((p.set_critical p1).set_critical p2).saved_consumption = dictGet p2 "consoEffacee" ∧
    ((p.set_critical p1).set_critical p2).consumption_code = dictGet p2 "codeConso" ∧
    ((p.set_critical p1).set_critical p2).is_billed = dictGet p2 "indFacture" :=
  ⟨rfl, rfl, rfl, rfl, rfl, rfl, rfl, rfl, rfl⟩

/-- Counterexample to claim C7: constructing a peak with
`preheat_duration = 0` succeeds — `Peak.__init__` stores the value
without any check and passes only the interval bounds to the base class,
so no `InvalidConfiguration` failure exists on the construction path. -/
theorem preheat_duration_unvalidated_cex :
    Peak.init 0 3600 0 =
      .ok { start_date := 0, end_date := 3600, preheat_duration := 0,
            is_critical := false, raw_stats := [] } := by
  rfl

/-- Claim C7 as amended: `Peak` construction never fails with
`InvalidConfiguration` — the pre-heat duration is stored unvalidated and,
whenever the interval itself is valid, construction succeeds for every
`preheat_duration`, including zero and negative values. -/
theorem peak_init_no_invalid_configuration (s e d : Int) (h : s < e) :
    Peak.init s e d =
      .ok { start_date := s, end_date := e, preheat_duration := d,
            is_critical := false, raw_stats := [] } ∧
    ∀ d2 : Int, Peak.init s e d2 ≠ .error .InvalidConfiguration := by
  constructor
  · unfold Peak.init
    rw [if_pos h]
  · intro d2 hc
    unfold Peak.init at hc
    split at hc <;> cases hc

/-- Concrete instance of the amended C7: a valid interval with a zero
pre-heat duration constructs successfully and does not produce
`InvalidConfiguration`. -/
theorem peak_init_no_invalid_configuration_witness :
    Peak.init 0 3600 0 =
      .ok { start_date := 0, end_date := 3600, preheat_duration := 0,
            is_critical := false, raw_stats := [] } ∧
    Peak.init 0 3600 (-5) ≠ .error .InvalidConfiguration :=
  ⟨(peak_init_no_invalid_configuration 0 3600 0 (by decide)).1,
    (peak_init_no_invalid_configuration 0 3600 0 (by decide)).2 (-5)⟩

/-- Claim C8: constructing a `TimeRange` (hence an `Anchor` or `PreHeat`)
or a `Peak` with `start >= end` fails with `InvalidInterval`, and every
successfully constructed instance satisfies `start < end`. -/
theorem interval_validation_invariant (s e : Int) (f : Bool) (d : Int) :
    (e ≤ s → TimeRange.init s e f = .error .InvalidInterval ∧
      Peak.init s e d = .error .InvalidInterval) ∧
    (∀ tr : TimeRange, TimeRange.init s e f = .ok tr →
      tr.start_date < tr.end_date) ∧
    (∀ p : Peak, Peak.init s e d = .ok p → p.start_date < p.end_date) := by
  refine ⟨fun h => ?_, fun tr htr => ?_, fun p hp => ?_⟩
  · unfold TimeRange.init Peak.init
    rw [if_neg (by omega), if_neg (by omega)]
    exact ⟨rfl, rfl⟩
  · unfold TimeRange.init at htr
    split at htr
    · cases htr
      assumption
    · cases htr
  · unfold Peak.init at hp
    split at hp
    · cases hp
      assumption
    · cases hp

/-- Concrete instance of C8: a reversed interval is rejected with
`InvalidInterval` for both constructors, and a well-formed constructed
window satisfies `start < end`. -/
theorem interval_validation_invariant_witness :
    TimeRange.init 3600 0 false = .error .InvalidInterval ∧
    Peak.init 3600 0 90 = .error .InvalidInterval ∧
    (⟨0, 3600, false⟩ : TimeRange).start_date <
      (⟨0, 3600, false⟩ : TimeRange).end_date := by
  have h1 := (interval_validation_invariant 3600 0 false 90).1 (by decide)
  have h2 := (interval_validation_invariant 0 3600 false 90).2.1
    ⟨0, 3600, false⟩ (by rfl)
  exact ⟨h1.1, h1.2, h2⟩

/-- Claim C9: writing `O` and `D` for the offset and duration pair the
classification selects, a positive-duration anchor derivation always
succeeds and satisfies `anchor.start = peak.start − O` hours and
`anchor.end = anchor.start + D` hours; consequently `D < O` leaves a gap
(`anchor.end < peak.start`) and the boundary case `D = O` makes the
anchor contiguous with the peak (`anchor.end = peak.start`). -/
theorem anchor_gap_property (c : CpcConsts) (p : Peak) (O D : Int)
    (hO : O = if p.is_morning_peak c then c.morning_anchor_start_offset
      else c.evening_anchor_start_offset)
    (hD : D = if p.is_morning_peak c then c.morning_anchor_duration
      else c.evening_anchor_duration)
    (hpos : 0 < D) :
    (p.anchor c).isOk = true ∧
    ∀ a : Anchor, p.anchor c = .ok a →
      a.start_date = p.start_date - O * 3600 ∧
      a.end_date = a.start_date + D * 3600 ∧
      (D < O → a.end_date < p.start_date) ∧
      (D = O → a.end_date = p.start_date) := by
  have hok : p.anchor c = .ok
      ⟨p.start_date - O * 3600, p.start_date - O * 3600 + D * 3600,
        p.is_critical⟩ := by
    unfold Peak.anchor TimeRange.init
    rw [← hO, ← hD, if_pos (by omega)]
  refine ⟨by rw [hok]; rfl, fun a ha => ?_⟩
  rw [hok] at ha
  cases ha
  refine ⟨rfl, rfl, fun hlt => by dsimp only; omega, fun heq => by dsimp only; omega⟩

/-- Concrete instance of C9, both cases for the evening peak 17:00–21:00:
with offset 2 h and duration 1 h the anchor 15:00–16:00 ends strictly
before the peak (a gap); with offset 2 h and duration 2 h the anchor
15:00–17:00 ends exactly at the peak start (contiguous). -/
theorem anchor_gap_property_witness :
    Peak.anchor ⟨21600, 32400, 3, 2, 2, 1⟩ ⟨61200, 75600, 180, false, []⟩ =
      .ok ⟨54000, 57600, false⟩ ∧
    (57600 : Int) < 61200 ∧
    Peak.anchor ⟨21600, 32400, 3, 2, 2, 2⟩ ⟨61200, 75600, 180, false, []⟩ =
      .ok ⟨54000, 61200, false⟩ ∧
    (⟨54000, 61200, false⟩ : Anchor).end_date =
      (⟨61200, 75600, 180, false, []⟩ : Peak).start_date := by
  have hgap : Peak.anchor ⟨21600, 32400, 3, 2, 2, 1⟩
      ⟨61200, 75600, 180, false, []⟩ = .ok ⟨54000, 57600, false⟩ := by rfl
  have hcont : Peak.anchor ⟨21600, 32400, 3, 2, 2, 2⟩
      ⟨61200, 75600, 180, false, []⟩ = .ok ⟨54000, 61200, false⟩ := by rfl
  have h1 := (anchor_gap_property ⟨21600, 32400, 3, 2, 2, 1⟩
    ⟨61200, 75600, 180, false, []⟩ 2 1 (by decide) (by decide) (by decide)).2
    ⟨54000, 57600, false⟩ hgap
  have h2 := (anchor_gap_property ⟨21600, 32400, 3, 2, 2, 2⟩
    ⟨61200, 75600, 180, false, []⟩ 2 2 (by decide) (by decide) (by decide)).2
    ⟨54000, 61200, false⟩ hcont
  exact ⟨hgap, h1.2.2.1 (by decide), hcont, h2.2.2.2 rfl⟩

/-- The bound pair of a constructed window does not depend on the
criticality flag passed to the constructor. -/
theorem timeRange_init_bounds (s e : Int) (f g : Bool) :
    Except.map (fun w : TimeRange => (w.start_date, w.end_date))
        (TimeRange.init s e f) =
      Except.map (fun w : TimeRange => (w.start_date, w.end_date))
        (TimeRange.init s e g) := by
  unfold TimeRange.init
  split <;> rfl

/-- Claim C10: `set_critical` changes only the criticality flag and the
stored settlement mapping — the interval bounds and the pre-heat duration
are untouched, so the anchor and preheat windows derived after the call
have exactly the bounds of those derived before it (mapping each derived
window to its bound pair gives equal results, errors included), differing
at most in their `is_critical` flag. -/
theorem set_critical_frame (c : CpcConsts) (p : Peak)
    (stats : CriticalPeakData) :
    (p.set_critical stats).start_date = p.start_date ∧
    (p.set_critical stats).end_date = p.end_date ∧
    (p.set_critical stats).preheat_duration = p.preheat_duration ∧
    Except.map (fun a : Anchor => (a.start_date, a.end_date))
        ((p.set_critical stats).anchor c) =
      Except.map (fun a : Anchor => (a.start_date, a.end_date)) (p.anchor c) ∧
    Except.map (fun w : PreHeat => (w.start_date, w.end_date))
        (p.set_critical stats).preheat =
      Except.map (fun w : PreHeat => (w.start_date, w.end_date)) p.preheat := by
  refine ⟨rfl, rfl, rfl, ?_, ?_⟩
  · unfold Peak.anchor Peak.is_morning_peak Peak.set_critical
    dsimp only
    exact timeRange_init_bounds _ _ _ _
  · unfold Peak.preheat Peak.set_critical
    dsimp only
    exact timeRange_init_bounds _ _ _ _
